import Mathlib

/-!
Verification development for the garden-center application's access-control
evaluator and inventory/mortality ledger.

The definitions below are a shallow embedding of the TypeScript source:

* `PERMISSIONS`, `ROLE_HIERARCHY` — the constant tables of `types/auth.ts`.
* `hasPermission` / `hasPermissionV2` — the two copies of the RBAC permission
  check (`lib/auth/rbac.ts`, two versions of the file).  Roles and permissions
  are kept as strings, exactly as the JavaScript runtime receives them, so the
  fail-closed behaviour on an unknown role key is representable.
* `canAccessRoute` / `canAccessRouteV2` — the two copies of the route guard.
  Routes are `List Char` (the character sequence of the route string) and
  `jsStartsWith s p` embeds JavaScript's `s.startsWith(p)`.
* `canTransitionWholesaleStatus`, `validTransitions` — the wholesale status
  state machine of the RBAC module, plus `applyWholesale` and
  `wholesaleActionNewStatus`, the status logic of the wholesale application
  endpoint and of the staff action endpoint.
* `recordMortality` — the mortality POST handler's validation and transaction
  (`api/inventory/mortality`).  The surrounding environment (clock, calendar
  month, the day count derived from `createdAt`) enters as explicit parameters.
-/

/-- Character-list view of a string literal; routes and prefixes are compared
as character sequences, as JavaScript does. -/
def strL (s : String) : List Char := s.toList

/-- Embedding of JavaScript `s.startsWith(p)`: `p` is a prefix of `s`. -/
def jsStartsWith (s p : List Char) : Bool := decide (p <+: s)

/-- The `PERMISSIONS` constant of `types/auth.ts` (the richer role taxonomy):
an association of each role name with its list of permission tags. -/
def PERMISSIONS : List (String × List String) :=
  [ ("GUEST",
      [ "view_products", "view_categories", "use_plant_scanner", "browse_content" ]),
    ("CUSTOMER",
      [ "view_products", "view_categories", "use_plant_scanner", "browse_content",
        "add_to_cart", "place_order", "view_own_orders", "track_orders",
        "write_reviews", "request_consultation", "manage_wishlist", "manage_profile",
        "view_loyalty_points", "redeem_loyalty_points", "apply_wholesale",
        "access_gardening_resources" ]),
    ("WHOLESALE_CUSTOMER",
      [ "view_products", "view_categories", "use_plant_scanner", "browse_content",
        "add_to_cart", "place_order", "view_own_orders", "track_orders",
        "write_reviews", "request_consultation", "manage_wishlist", "manage_profile",
        "view_loyalty_points", "redeem_loyalty_points", "access_gardening_resources",
        "view_wholesale_prices", "place_wholesale_orders", "manage_projects",
        "bulk_order", "request_quotes", "manage_payment_terms",
        "view_volume_discounts", "schedule_deliveries" ]),
    ("EMPLOYEE",
      [ "view_products", "view_categories", "view_orders", "update_order_status",
        "view_customers", "assist_customers", "view_inventory", "process_returns",
        "manage_pickup_orders", "handle_customer_service", "access_staff_tools",
        "process_transactions", "manage_local_orders" ]),
    ("INVENTORY_MANAGER",
      [ "view_products", "add_products", "edit_products", "view_orders",
        "update_order_status", "view_customers", "assist_customers",
        "view_inventory", "manage_inventory", "update_quantities",
        "track_shipments", "track_mortality", "manage_plant_lifecycle",
        "update_plant_health", "create_mortality_reports", "manage_suppliers",
        "reorder_products", "adjust_stock_levels", "manage_locations",
        "view_inventory_reports", "scan_barcodes", "receive_shipments",
        "track_incoming_shipments" ]),
    ("DELIVERY_DRIVER",
      [ "view_delivery_orders", "update_delivery_status", "capture_signatures",
        "view_delivery_routes", "navigate_to_customers", "contact_customers",
        "report_delivery_issues", "capture_photos", "scan_delivered_items",
        "manage_delivery_routes", "communicate_with_customers" ]),
    ("CONTENT_CREATOR",
      [ "view_products", "create_plant_guides", "edit_plant_guides",
        "manage_care_instructions", "create_educational_content",
        "manage_plant_database", "upload_images", "create_videos",
        "schedule_content", "respond_to_plant_questions",
        "verify_plant_identifications", "create_gardening_tips",
        "update_plant_care_guides", "create_blog_posts",
        "manage_informational_content" ]),
    ("MANAGER",
      [ "view_products", "add_products", "edit_products", "delete_products",
        "view_orders", "manage_orders", "cancel_orders", "view_customers",
        "manage_customers", "view_inventory", "manage_inventory",
        "track_mortality", "manage_plant_lifecycle", "manage_suppliers",
        "view_reports", "manage_staff", "schedule_deliveries",
        "manage_consultations", "approve_returns", "set_pricing",
        "manage_promotions", "view_analytics", "manage_wholesale_accounts",
        "approve_large_orders", "full_order_fulfillment", "manage_app_content",
        "user_management", "manage_settings" ]),
    ("ADMIN",
      [ "full_access", "manage_users", "manage_roles", "assign_permissions",
        "system_settings", "view_analytics", "manage_categories",
        "manage_promotions", "manage_loyalty_program", "export_data",
        "backup_restore", "audit_logs", "security_settings",
        "database_management", "api_management", "integration_settings",
        "notification_settings", "payment_settings", "tax_settings",
        "manage_app_content", "user_management", "order_fulfillment",
        "inventory_control", "manage_all_settings" ]) ]

/-- JavaScript object indexing `PERMISSIONS[userRole]`: `none` models the
`undefined` obtained for a key that is not in the table. -/
def lookupPerms (userRole : String) : Option (List String) :=
  (PERMISSIONS.find? (fun e => e.1 == userRole)).map (·.2)

/-- `hasPermission` from the first copy of `lib/auth/rbac.ts`: the table is
consulted first (an unknown role returns `false`), then the admin override,
then membership in the role's permission list. -/
def hasPermission (userRole permission : String) : Bool :=
  match lookupPerms userRole with
  | none => false
  | some rolePermissions =>
    if userRole = "ADMIN" then true
    else rolePermissions.contains permission

/-- `hasPermission` from the second copy of `lib/auth/rbac.ts`: the admin
override is tested first, then the table lookup with the same `undefined`
fallback to `false`. -/
def hasPermissionV2 (userRole permission : String) : Bool :=
  if userRole = "ADMIN" then true
  else
    match lookupPerms userRole with
    | none => false
    | some rolePermissions => rolePermissions.contains permission

/-- The `ROLE_HIERARCHY` constant of `types/auth.ts`. -/
def ROLE_HIERARCHY : List (String × Int) :=
  [ ("GUEST", 0), ("CUSTOMER", 1), ("WHOLESALE_CUSTOMER", 2),
    ("DELIVERY_DRIVER", 3), ("CONTENT_CREATOR", 3), ("EMPLOYEE", 4),
    ("INVENTORY_MANAGER", 5), ("MANAGER", 6), ("ADMIN", 7) ]

/-- Hierarchy rank lookup, `ROLE_HIERARCHY[role]`. -/
def lookupRank (role : String) : Option Int :=
  (ROLE_HIERARCHY.find? (fun e => e.1 == role)).map (·.2)

/-- `isRoleEqualOrHigher` of the RBAC module.  In JavaScript a comparison with
an `undefined` rank evaluates to `false`, hence the fail-closed `none` cases. -/
def isRoleEqualOrHigher (roleA roleB : String) : Bool :=
  match lookupRank roleA, lookupRank roleB with
  | some a, some b => decide (b ≤ a)
  | _, _ => false

/-- `isStaffRole` of the first RBAC copy. -/
def isStaffRole (role : String) : Bool :=
  [ "EMPLOYEE", "INVENTORY_MANAGER", "DELIVERY_DRIVER", "CONTENT_CREATOR",
    "MANAGER", "ADMIN" ].contains role

/-- `isStaff` of the second RBAC copy (the taxonomy with a `STAFF` role). -/
def isStaffV2 (role : String) : Bool :=
  [ "STAFF", "INVENTORY_MANAGER", "DELIVERY_DRIVER", "MANAGER", "ADMIN" ].contains role

/-- `isWholesaleCustomer` of the second RBAC copy. -/
def isWholesaleCustomerV2 (role : String) : Bool := role = "WHOLESALE_CUSTOMER"

/-- `hasRoleLevel` of the second RBAC copy. -/
def hasRoleLevelV2 (userRole requiredRole : String) : Bool :=
  isRoleEqualOrHigher userRole requiredRole

/-- The public route prefixes of the first `canAccessRoute`. -/
def publicRoutes : List (List Char) :=
  [ strL "/", strL "/products", strL "/categories", strL "/about",
    strL "/contact", strL "/search" ]

/-- The customer route prefixes of the first `canAccessRoute`. -/
def customerRoutes : List (List Char) :=
  [ strL "/cart", strL "/checkout", strL "/account", strL "/orders",
    strL "/wishlist", strL "/favorites", strL "/profile" ]

/-- The wholesale route prefixes. -/
def wholesaleRoutes : List (List Char) := [ strL "/wholesale" ]

/-- The staff route prefixes of the first `canAccessRoute`. -/
def staffRoutes : List (List Char) := [ strL "/admin", strL "/dashboard", strL "/staff" ]

/-- The inventory-management route prefixes. -/
def inventoryRoutes : List (List Char) :=
  [ strL "/admin/inventory", strL "/admin/mortality", strL "/admin/plants" ]

/-- The supplier-management route prefixes. -/
def supplierRoutes : List (List Char) := [ strL "/admin/suppliers" ]

/-- The wholesale-management route prefixes. -/
def wholesaleManagementRoutes : List (List Char) := [ strL "/admin/wholesale" ]

/-- The delivery route prefixes. -/
def deliveryRoutes : List (List Char) := [ strL "/admin/deliveries", strL "/driver" ]

/-- The content-management route prefixes. -/
def contentRoutes : List (List Char) := [ strL "/admin/content", strL "/admin/guides" ]

/-- The admin-only route prefixes (shared by both copies). -/
def adminRoutes : List (List Char) :=
  [ strL "/admin/users", strL "/admin/settings", strL "/admin/analytics" ]

/-- `canAccessRoute` from the first copy of `lib/auth/rbac.ts`: an ordered
sequence of prefix-rule groups, first matching group wins, default deny. -/
def canAccessRoute (userRole : String) (route : List Char) : Bool :=
  if publicRoutes.any (fun p => jsStartsWith route p) then true
  else if customerRoutes.any (fun p => jsStartsWith route p) then
    isRoleEqualOrHigher userRole "CUSTOMER"
  else if wholesaleRoutes.any (fun p => jsStartsWith route p) then
    decide (userRole = "WHOLESALE_CUSTOMER") || isStaffRole userRole
  else if staffRoutes.any (fun p => jsStartsWith route p) then
    isStaffRole userRole
  else if inventoryRoutes.any (fun p => jsStartsWith route p) then
    hasPermission userRole "manage_inventory" || hasPermission userRole "view_inventory"
  else if supplierRoutes.any (fun p => jsStartsWith route p) then
    hasPermission userRole "manage_suppliers"
  else if wholesaleManagementRoutes.any (fun p => jsStartsWith route p) then
    hasPermission userRole "manage_wholesale_accounts"
  else if deliveryRoutes.any (fun p => jsStartsWith route p) then
    hasPermission userRole "view_delivery_orders"
  else if contentRoutes.any (fun p => jsStartsWith route p) then
    hasPermission userRole "create_plant_guides"
  else if adminRoutes.any (fun p => jsStartsWith route p) then
    decide (userRole = "ADMIN")
  else false

/-- The public route prefixes of the second `canAccessRoute`. -/
def publicRoutesV2 : List (List Char) :=
  [ strL "/", strL "/products", strL "/categories", strL "/about", strL "/contact" ]

/-- The customer route prefixes of the second `canAccessRoute`. -/
def customerRoutesV2 : List (List Char) :=
  [ strL "/cart", strL "/checkout", strL "/account", strL "/orders", strL "/wishlist" ]

/-- The staff route prefixes of the second `canAccessRoute`. -/
def staffRoutesV2 : List (List Char) := [ strL "/admin", strL "/dashboard" ]

/-- `canAccessRoute` from the second copy of `lib/auth/rbac.ts`. -/
def canAccessRouteV2 (userRole : String) (route : List Char) : Bool :=
  if publicRoutesV2.any (fun p => jsStartsWith route p) then true
  else if customerRoutesV2.any (fun p => jsStartsWith route p) then
    hasRoleLevelV2 userRole "CUSTOMER"
  else if wholesaleRoutes.any (fun p => jsStartsWith route p) then
    isWholesaleCustomerV2 userRole || isStaffV2 userRole
  else if staffRoutesV2.any (fun p => jsStartsWith route p) then
    isStaffV2 userRole
  else if adminRoutes.any (fun p => jsStartsWith route p) then
    decide (userRole = "ADMIN")
  else false

/-- The closed role vocabulary of `types/auth.ts` (richer taxonomy). -/
inductive Role
  | GUEST | CUSTOMER | WHOLESALE_CUSTOMER | EMPLOYEE | INVENTORY_MANAGER
  | DELIVERY_DRIVER | CONTENT_CREATOR | MANAGER | ADMIN
  deriving DecidableEq, Fintype

/-- The string tag of each role, as stored on a user account. -/
def roleName : Role → String
  | .GUEST => "GUEST"
  | .CUSTOMER => "CUSTOMER"
  | .WHOLESALE_CUSTOMER => "WHOLESALE_CUSTOMER"
  | .EMPLOYEE => "EMPLOYEE"
  | .INVENTORY_MANAGER => "INVENTORY_MANAGER"
  | .DELIVERY_DRIVER => "DELIVERY_DRIVER"
  | .CONTENT_CREATOR => "CONTENT_CREATOR"
  | .MANAGER => "MANAGER"
  | .ADMIN => "ADMIN"

/-- The `WholesaleStatus` enumeration of `types/auth.ts`. -/
inductive WholesaleStatus
  | NOT_APPLIED | APPLICATION_PENDING | APPROVED | REJECTED | SUSPENDED | CANCELLED
  deriving DecidableEq, Fintype

/-- The `validTransitions` table inside `canTransitionWholesaleStatus`. -/
def validTransitions : WholesaleStatus → List WholesaleStatus
  | .NOT_APPLIED => [.APPLICATION_PENDING]
  | .APPLICATION_PENDING => [.APPROVED, .REJECTED]
  | .APPROVED => [.SUSPENDED, .CANCELLED]
  | .REJECTED => [.APPLICATION_PENDING]
  | .SUSPENDED => [.APPROVED, .CANCELLED]
  | .CANCELLED => []

/-- `canTransitionWholesaleStatus` of the RBAC module: a wholesale-management
permission gate followed by the fixed transition table. -/
def canTransitionWholesaleStatus (userRole : String)
    (fromStatus toStatus : WholesaleStatus) : Bool :=
  if ¬ (hasPermission userRole "manage_wholesale_accounts"
        || hasPermission userRole "user_management") then false
  else (validTransitions fromStatus).contains toStatus

/-- Status decision of the wholesale application endpoint
(`api/wholesale/apply`, POST): only a pending or an already approved account is
refused; every other current status is moved to `APPLICATION_PENDING`. -/
def applyWholesale (status : WholesaleStatus) : Except String WholesaleStatus :=
  if status = .APPLICATION_PENDING then
    .error "You already have a wholesale application pending review"
  else if status = .APPROVED then
    .error "You already have an approved wholesale account"
  else .ok .APPLICATION_PENDING

/-- The four staff actions of the wholesale management endpoint. -/
inductive WholesaleAction
  | approve | reject | suspendAccount | reactivate
  deriving DecidableEq, Fintype

/-- Status decision of the wholesale management endpoint
(`api/admin/wholesale-applications`, POST): the new status when the action's
state precondition holds, `none` when the request is refused. -/
def wholesaleActionNewStatus (action : WholesaleAction)
    (current : WholesaleStatus) : Option WholesaleStatus :=
  match action with
  | .approve =>
    if current = .APPLICATION_PENDING || current = .REJECTED then some .APPROVED else none
  | .reject =>
    if current = .APPLICATION_PENDING then some .REJECTED else none
  | .suspendAccount =>
    if current = .APPROVED then some .SUSPENDED else none
  | .reactivate =>
    if current = .SUSPENDED then some .APPROVED else none

/-- Permission gate of the wholesale applications GET handler. -/
def wholesaleApplicationsGETAllowed (userRole : String) : Bool :=
  hasPermission userRole "manage_wholesale_customers"

/-- Permission gate of the wholesale applications POST handler. -/
def wholesaleApplicationsPOSTAllowed (userRole : String) : Bool :=
  hasPermission userRole "approve_wholesale_applications"

/-- The season vocabulary of the mortality schema. -/
inductive Season
  | Spring | Summer | Fall | Winter
  deriving DecidableEq, Fintype

/-- The movement type tags used by the inventory endpoints. -/
inductive MovementType
  | IN | OUT | ADJUSTMENT
  deriving DecidableEq, Fintype

/-- The mortality reason vocabulary of the zod schema in
`api/inventory/mortality`. -/
def mortalityReasons : List String :=
  [ "NATURAL_AGING", "OVERWATERING", "UNDERWATERING", "DISEASE", "PEST_DAMAGE",
    "FROST_DAMAGE", "HEAT_STRESS", "TRANSPLANT_SHOCK", "NUTRIENT_DEFICIENCY",
    "ROOT_ROT", "FUNGAL_INFECTION", "BACTERIAL_INFECTION", "VIRAL_INFECTION",
    "PHYSICAL_DAMAGE", "POOR_SOIL_CONDITIONS", "IMPROPER_LIGHTING",
    "CHEMICAL_BURN", "CUSTOMER_DAMAGE", "THEFT", "OTHER" ]

/-- The fields of an `InventoryItem` row read and written by the mortality
transaction. -/
structure InventoryItem where
  quantity : Int
  unitCost : Option Int
  totalValue : Option Int
  deriving DecidableEq

/-- The fields of a `PlantLifecycle` row read and written by the mortality
transaction. -/
structure PlantLifecycle where
  daysInYard : Int
  isAlive : Bool
  deathDate : Option Int
  deathReason : Option String
  mortalityNotes : Option String
  deriving DecidableEq

/-- An `InventoryMovement` row as created by the mortality transaction. -/
structure InventoryMovement where
  type : MovementType
  quantity : Int
  reason : String
  notes : Option String
  deriving DecidableEq

/-- A `MortalityLog` row as created by the mortality transaction. -/
structure MortalityLog where
  reason : String
  quantity : Int
  unitCost : Int
  totalLoss : Int
  daysInInventory : Int
  season : Season
  notes : Option String
  deriving DecidableEq

/-- The body of a mortality POST request after JSON parsing; the zod
constraints themselves are checked by `schemaValid`. -/
structure MortalityRequest where
  reason : String
  quantity : Int
  notes : Option String
  season : Option Season
  deriving DecidableEq

/-- The persisted state the mortality transaction touches: the targeted
inventory item, its optional lifecycle row, and the two append-only logs
(newest entry first). -/
structure LedgerState where
  item : InventoryItem
  lifecycle : Option PlantLifecycle
  movements : List InventoryMovement
  mortalityLogs : List MortalityLog
  deriving DecidableEq

/-- The zod schema checks of `mortalityLogSchema` on the fields the ledger
uses: the reason is drawn from the fixed vocabulary and the quantity is an
integer of at least 1. -/
def schemaValid (req : MortalityRequest) : Bool :=
  mortalityReasons.contains req.reason && decide (1 ≤ req.quantity)

/-- Season inference from the zero-based JavaScript calendar month
(`new Date().getMonth()`), as in the mortality POST handler. -/
def inferSeason (currentMonth : Nat) : Season :=
  if 2 ≤ currentMonth ∧ currentMonth ≤ 4 then .Spring
  else if 5 ≤ currentMonth ∧ currentMonth ≤ 7 then .Summer
  else if 8 ≤ currentMonth ∧ currentMonth ≤ 10 then .Fall
  else .Winter

/-- The handler's season selection: a supplied season is used unchanged,
otherwise it is inferred from the current month. -/
def seasonChoice (supplied : Option Season) (currentMonth : Nat) : Season :=
  match supplied with
  | some s => s
  | none => inferSeason currentMonth

/-- The handler's `unitCost` value: `Number(inventoryItem.unitCost)` with the
falsy fallback to 0 when the column is null. -/
def mortalityUnitCost (st : LedgerState) : Int :=
  match st.item.unitCost with | some c => c | none => 0

/-- The handler's `daysInInventory` value: the lifecycle day counter when one
is present and non-zero (JavaScript's `||` also falls through on a zero
counter), otherwise the day count derived from the item's `createdAt`, passed
here as `fallbackDays`. -/
def mortalityDays (st : LedgerState) (fallbackDays : Int) : Int :=
  match st.lifecycle with
  | some l => if l.daysInYard = 0 then fallbackDays else l.daysInYard
  | none => fallbackDays

/-- The `MortalityLog` row created by the transaction. -/
def mortalityLogOf (st : LedgerState) (req : MortalityRequest)
    (currentMonth : Nat) (fallbackDays : Int) : MortalityLog :=
  { reason := req.reason, quantity := req.quantity,
    unitCost := mortalityUnitCost st,
    totalLoss := mortalityUnitCost st * req.quantity,
    daysInInventory := mortalityDays st fallbackDays,
    season := seasonChoice req.season currentMonth,
    notes := req.notes }

/-- The `InventoryItem` row after the transaction's update: the quantity is
decremented and `totalValue` is recomputed from the remaining quantity when a
unit cost is present (otherwise rewritten unchanged). -/
def mortalityItemAfter (st : LedgerState) (req : MortalityRequest) : InventoryItem :=
  { quantity := st.item.quantity - req.quantity,
    unitCost := st.item.unitCost,
    totalValue :=
      match st.item.unitCost with
      | some c => some ((st.item.quantity - req.quantity) * c)
      | none => st.item.totalValue }

/-- The `PlantLifecycle` row after the transaction's update, applied only when
a lifecycle row exists: `isAlive` becomes the remaining quantity being
positive, and `deathDate`/`deathReason` are written exactly when the remaining
quantity is zero (null otherwise); `mortalityNotes` is updated only when notes
were supplied (Prisma skips an `undefined` field). -/
def lifecycleRowAfter (st : LedgerState) (req : MortalityRequest) (now : Int)
    (l : PlantLifecycle) : PlantLifecycle :=
  { daysInYard := l.daysInYard,
    isAlive := decide (0 < st.item.quantity - req.quantity),
    deathDate :=
      if st.item.quantity - req.quantity = 0 then some now else none,
    deathReason :=
      if st.item.quantity - req.quantity = 0 then some req.reason else none,
    mortalityNotes :=
      match req.notes with
      | some n => some n
      | none => l.mortalityNotes }

/-- The optional lifecycle row after the transaction: updated when present,
still absent when absent. -/
def mortalityLifecycleAfter (st : LedgerState) (req : MortalityRequest)
    (now : Int) : Option PlantLifecycle :=
  st.lifecycle.map (lifecycleRowAfter st req now)

/-- The `InventoryMovement` row created by the transaction. -/
def mortalityMovementOf (req : MortalityRequest) : InventoryMovement :=
  { type := .OUT, quantity := req.quantity,
    reason := "Mortality: " ++ req.reason, notes := req.notes }

/-- The ledger state after a successful mortality transaction. -/
def mortalitySuccessState (st : LedgerState) (req : MortalityRequest)
    (now : Int) (currentMonth : Nat) (fallbackDays : Int) : LedgerState :=
  { item := mortalityItemAfter st req,
    lifecycle := mortalityLifecycleAfter st req now,
    movements := mortalityMovementOf req :: st.movements,
    mortalityLogs := mortalityLogOf st req currentMonth fallbackDays :: st.mortalityLogs }

/-- The mortality POST handler (`api/inventory/mortality`): schema validation,
the insufficient-stock guard, then the transaction that creates the
`MortalityLog`, decrements the item quantity and recomputes `totalValue`,
updates the lifecycle row when one exists, and creates the matching OUT
movement.  `now` is the operation timestamp, `currentMonth` the zero-based
calendar month, and `fallbackDays` the day count derived from the item's
`createdAt`. -/
def recordMortality (st : LedgerState) (req : MortalityRequest) (now : Int)
    (currentMonth : Nat) (fallbackDays : Int) :
    Except String (LedgerState × MortalityLog) :=
  if ¬ schemaValid req then .error "Invalid mortality data"
  else if st.item.quantity < req.quantity then
    .error "Cannot log mortality for more items than available in inventory"
  else
    .ok (mortalitySuccessState st req now currentMonth fallbackDays,
         mortalityLogOf st req currentMonth fallbackDays)

/-- The state after a mortality POST: the transaction's result on success, the
untouched state on any rejection (the handler writes nothing before the
transaction and the transaction is all-or-nothing). -/
def applyMortality (st : LedgerState) (req : MortalityRequest) (now : Int)
    (currentMonth : Nat) (fallbackDays : Int) : LedgerState :=
  match recordMortality st req now currentMonth fallbackDays with
  | .ok (st', _) => st'
  | .error _ => st

/-- A route that matches any member of a rule group whose prefixes all begin
with the slash character itself begins with the slash character; hence no
group fires on a route that does not begin with a slash. -/
lemma routeGroupAnyFalse (route : List Char) (L : List (List Char))
    (hall : L.all (fun p => jsStartsWith p (strL "/")) = true)
    (h : jsStartsWith route (strL "/") = false) :
    L.any (fun p => jsStartsWith route p) = false := by
  cases hc : L.any (fun p => jsStartsWith route p) with
  | false => rfl
  | true =>
    obtain ⟨p, hp, hpr⟩ := List.any_eq_true.mp hc
    have h1 := List.all_eq_true.mp hall p hp
    simp only [jsStartsWith, decide_eq_true_eq] at h1 hpr
    have h3 : jsStartsWith route (strL "/") = true := by
      simp only [jsStartsWith, decide_eq_true_eq]
      exact h1.trans hpr
    rw [h3] at h
    cases h

/-- The first route guard answers by the slash test alone: its public group,
whose first prefix is the bare slash, fires on every route beginning with a
slash, and no later group can fire on any other route. -/
lemma canAccessRoute_eq_slashTest (role : String) (route : List Char) :
    canAccessRoute role route = jsStartsWith route (strL "/") := by
  cases hb : jsStartsWith route (strL "/") with
  | true =>
    have h1 : publicRoutes.any (fun p => jsStartsWith route p) = true :=
      List.any_eq_true.mpr ⟨strL "/", by decide, hb⟩
    simp [canAccessRoute, h1]
  | false =>
    simp [canAccessRoute,
      routeGroupAnyFalse route publicRoutes (by decide) hb,
      routeGroupAnyFalse route customerRoutes (by decide) hb,
      routeGroupAnyFalse route wholesaleRoutes (by decide) hb,
      routeGroupAnyFalse route staffRoutes (by decide) hb,
      routeGroupAnyFalse route inventoryRoutes (by decide) hb,
      routeGroupAnyFalse route supplierRoutes (by decide) hb,
      routeGroupAnyFalse route wholesaleManagementRoutes (by decide) hb,
      routeGroupAnyFalse route deliveryRoutes (by decide) hb,
      routeGroupAnyFalse route contentRoutes (by decide) hb,
      routeGroupAnyFalse route adminRoutes (by decide) hb]

/-- The second route guard also answers by the slash test alone. -/
lemma canAccessRouteV2_eq_slashTest (role : String) (route : List Char) :
    canAccessRouteV2 role route = jsStartsWith route (strL "/") := by
  cases hb : jsStartsWith route (strL "/") with
  | true =>
    have h1 : publicRoutesV2.any (fun p => jsStartsWith route p) = true :=
      List.any_eq_true.mpr ⟨strL "/", by decide, hb⟩
    simp [canAccessRouteV2, h1]
  | false =>
    simp [canAccessRouteV2,
      routeGroupAnyFalse route publicRoutesV2 (by decide) hb,
      routeGroupAnyFalse route customerRoutesV2 (by decide) hb,
      routeGroupAnyFalse route wholesaleRoutes (by decide) hb,
      routeGroupAnyFalse route staffRoutesV2 (by decide) hb,
      routeGroupAnyFalse route adminRoutes (by decide) hb]

/-- Claim C9: both implementations of `canAccessRoute` return `true` exactly
when the route begins with a slash — the public group contains the bare slash
prefix and is tested first, so every later rule is unreachable — and hence the
two divergent implementations are extensionally equal. -/
theorem claim_C9_route_guards_degenerate :
    ∀ (role : String) (route : List Char),
      canAccessRoute role route = jsStartsWith route (strL "/") ∧
      canAccessRouteV2 role route = jsStartsWith route (strL "/") ∧
      canAccessRoute role route = canAccessRouteV2 role route :=
  fun role route =>
    ⟨canAccessRoute_eq_slashTest role route,
     canAccessRouteV2_eq_slashTest role route,
     by rw [canAccessRoute_eq_slashTest, canAccessRouteV2_eq_slashTest]⟩

/-- Claim C1 (evaluation at the failing input): both route guards allow the
CUSTOMER role onto the admin-only route `/admin/users`, because the public
prefix `/` is tested first — the spec requires this request to be denied.  The
ADMIN role is allowed, as the spec states. -/
theorem claim_C1_admin_route_leak :
    canAccessRoute "CUSTOMER" (strL "/admin/users") = true ∧
    canAccessRouteV2 "CUSTOMER" (strL "/admin/users") = true ∧
    canAccessRoute "ADMIN" (strL "/admin/users") = true ∧
    canAccessRouteV2 "ADMIN" (strL "/admin/users") = true := by
  refine ⟨?_, ?_, ?_, ?_⟩ <;> decide

/-- Claim C7: `hasPermission` (both copies) grants the ADMIN role every
permission, fails closed on a role key absent from the permission table, and
otherwise answers exactly by membership of the permission in the role's
permission list; the two copies agree on all inputs. -/
theorem claim_C7_hasPermission_spec :
    (∀ p : String, hasPermission "ADMIN" p = true) ∧
    (∀ p : String, hasPermissionV2 "ADMIN" p = true) ∧
    (∀ r p : String, lookupPerms r = none →
      hasPermission r p = false ∧ hasPermissionV2 r p = false) ∧
    (∀ r p : String, ∀ ps, r ≠ "ADMIN" → lookupPerms r = some ps →
      hasPermission r p = ps.contains p ∧ hasPermissionV2 r p = ps.contains p) ∧
    (∀ r p : String, hasPermission r p = hasPermissionV2 r p) := by
  refine ⟨fun p => rfl, fun p => rfl, ?_, ?_, ?_⟩
  · intro r p h
    have hne : r ≠ "ADMIN" := by
      rintro rfl
      exact absurd h (by decide)
    constructor
    · simp [hasPermission, h]
    · simp [hasPermissionV2, h, hne]
  · intro r p ps hne h
    constructor
    · simp [hasPermission, h, hne]
    · simp [hasPermissionV2, h, hne]
  · intro r p
    by_cases he : r = "ADMIN"
    · subst he
      rfl
    · cases hl : lookupPerms r with
      | none => simp [hasPermission, hasPermissionV2, hl, he]
      | some ps => simp [hasPermission, hasPermissionV2, hl, he]

/-- Witness for claim C7: a role key that is not in the permission table is
denied by both copies, and a customer check is exactly list membership. -/
theorem claim_C7_witness :
    (hasPermission "ACCOUNTANT" "view_products" = false ∧
     hasPermissionV2 "ACCOUNTANT" "view_products" = false) ∧
    hasPermission "CUSTOMER" "apply_wholesale" =
      ((lookupPerms "CUSTOMER").getD []).contains "apply_wholesale" :=
  ⟨claim_C7_hasPermission_spec.2.2.1 "ACCOUNTANT" "view_products" rfl,
   (claim_C7_hasPermission_spec.2.2.2.1 "CUSTOMER" "apply_wholesale"
      ((lookupPerms "CUSTOMER").getD []) (by decide) rfl).1⟩

/-- Claim C5: `canTransitionWholesaleStatus` is the conjunction of the fixed
transition table with the wholesale-management permission (across the role
vocabulary, the caller passes the permission gate exactly when it holds
`manage_wholesale_accounts`); every pair outside the table is rejected for
every role, and in particular nothing leaves the CANCELLED state, ADMIN
included. -/
theorem claim_C5_wholesale_transition_gate :
    (∀ (r : Role) (f t : WholesaleStatus),
      canTransitionWholesaleStatus (roleName r) f t =
        ((validTransitions f).contains t &&
          hasPermission (roleName r) "manage_wholesale_accounts")) ∧
    (∀ (r : Role) (f t : WholesaleStatus),
      (validTransitions f).contains t = false →
        canTransitionWholesaleStatus (roleName r) f t = false) ∧
    (∀ (r : Role) (t : WholesaleStatus),
      canTransitionWholesaleStatus (roleName r) WholesaleStatus.CANCELLED t = false) := by
  refine ⟨by decide, by decide, by decide⟩

/-- Witness for claim C5: the pair CANCELLED to APPROVED is outside the table
and is rejected even for the ADMIN role. -/
theorem claim_C5_witness :
    (validTransitions WholesaleStatus.CANCELLED).contains WholesaleStatus.APPROVED = false ∧
    canTransitionWholesaleStatus (roleName Role.ADMIN)
      WholesaleStatus.CANCELLED WholesaleStatus.APPROVED = false :=
  ⟨by decide,
   claim_C5_wholesale_transition_gate.2.1 Role.ADMIN
     WholesaleStatus.CANCELLED WholesaleStatus.APPROVED (by decide)⟩

/-- Claim C10: neither `manage_wholesale_customers` nor
`approve_wholesale_applications` occurs in any role's permission list, so
`hasPermission` grants them only through the ADMIN override; consequently the
wholesale-applications GET and POST gates authorize exactly the ADMIN role,
and MANAGER — which does hold `manage_wholesale_accounts` — is rejected by
both. -/
theorem claim_C10_wholesale_gates_admin_only :
    (∀ r : Role,
      ((lookupPerms (roleName r)).getD []).contains "manage_wholesale_customers" = false) ∧
    (∀ r : Role,
      ((lookupPerms (roleName r)).getD []).contains "approve_wholesale_applications" = false) ∧
    (∀ r : Role,
      hasPermission (roleName r) "manage_wholesale_customers" = decide (r = Role.ADMIN)) ∧
    (∀ r : Role,
      hasPermission (roleName r) "approve_wholesale_applications" = decide (r = Role.ADMIN)) ∧
    (∀ r : Role,
      wholesaleApplicationsGETAllowed (roleName r) = decide (r = Role.ADMIN)) ∧
    (∀ r : Role,
      wholesaleApplicationsPOSTAllowed (roleName r) = decide (r = Role.ADMIN)) ∧
    hasPermission "MANAGER" "manage_wholesale_accounts" = true ∧
    wholesaleApplicationsGETAllowed "MANAGER" = false ∧
    wholesaleApplicationsPOSTAllowed "MANAGER" = false := by
  refine ⟨by decide, by decide, by decide, by decide, by decide, by decide,
    by decide, by decide, by decide⟩

/-- Claim C6 (evaluation at the failing input): the wholesale application
endpoint moves a CANCELLED account back to APPLICATION_PENDING — it refuses
only pending and approved accounts — although the RBAC module's own transition
table declares CANCELLED terminal and the staff action endpoint refuses every
action on a CANCELLED account. -/
theorem claim_C6_cancelled_not_terminal :
    applyWholesale WholesaleStatus.CANCELLED =
      Except.ok WholesaleStatus.APPLICATION_PENDING ∧
    validTransitions WholesaleStatus.CANCELLED = [] ∧
    (∀ a : WholesaleAction,
      wholesaleActionNewStatus a WholesaleStatus.CANCELLED = none) ∧
    (∀ (r : Role) (t : WholesaleStatus),
      canTransitionWholesaleStatus (roleName r) WholesaleStatus.CANCELLED t = false) := by
  refine ⟨rfl, rfl, by decide, by decide⟩

/-- A request with a reason from the vocabulary and a positive quantity passes
the schema check. -/
lemma schemaValid_of (req : MortalityRequest)
    (hreason : mortalityReasons.contains req.reason = true)
    (hpos : 1 ≤ req.quantity) : schemaValid req = true := by
  unfold schemaValid
  rw [hreason]
  simp [hpos]

/-- With the schema check passed and enough stock on hand, the mortality
handler reaches the transaction and returns the success state and log. -/
lemma recordMortality_ok_eq (st : LedgerState) (req : MortalityRequest)
    (now : Int) (currentMonth : Nat) (fallbackDays : Int)
    (hs : schemaValid req = true)
    (hng : ¬ st.item.quantity < req.quantity) :
    recordMortality st req now currentMonth fallbackDays =
      Except.ok (mortalitySuccessState st req now currentMonth fallbackDays,
                 mortalityLogOf st req currentMonth fallbackDays) := by
  simp [recordMortality, hs, hng]

/-- Claim C2: a schema-valid mortality request whose quantity is within the
on-hand quantity succeeds and, in one atomic step, decrements the item
quantity by exactly the requested amount, recomputes `totalValue` from the
remaining quantity when a unit cost is present, prepends exactly one
`MortalityLog` with the requested quantity and `totalLoss` equal to unit cost
times quantity (zero when the unit cost is absent), and prepends exactly one
matching OUT movement with the same quantity. -/
theorem claim_C2_mortality_success_effects
    (st : LedgerState) (req : MortalityRequest) (now : Int)
    (currentMonth : Nat) (fallbackDays : Int)
    (hreason : mortalityReasons.contains req.reason = true)
    (hpos : 1 ≤ req.quantity)
    (havail : req.quantity ≤ st.item.quantity) :
    ∃ st' log,
      recordMortality st req now currentMonth fallbackDays =
        Except.ok (st', log) ∧
      st'.item.quantity = st.item.quantity - req.quantity ∧
      (∀ c, st.item.unitCost = some c →
        st'.item.totalValue = some ((st.item.quantity - req.quantity) * c)) ∧
      st'.mortalityLogs = log :: st.mortalityLogs ∧
      log.quantity = req.quantity ∧
      log.totalLoss = (st.item.unitCost.getD 0) * req.quantity ∧
      (st.item.unitCost = none → log.totalLoss = 0) ∧
      ∃ mv, st'.movements = mv :: st.movements ∧
        mv.type = MovementType.OUT ∧ mv.quantity = req.quantity := by
  have hs := schemaValid_of req hreason hpos
  have hng : ¬ st.item.quantity < req.quantity := not_lt.mpr havail
  refine ⟨_, _,
    recordMortality_ok_eq st req now currentMonth fallbackDays hs hng,
    rfl, ?_, rfl, rfl, ?_, ?_, ⟨_, rfl, rfl, rfl⟩⟩
  · intro c hc
    simp [mortalitySuccessState, mortalityItemAfter, hc]
  · cases hu : st.item.unitCost with
    | none => simp [mortalityLogOf, mortalityUnitCost, hu]
    | some c => simp [mortalityLogOf, mortalityUnitCost, hu]
  · intro hu
    simp [mortalityLogOf, mortalityUnitCost, hu]

/-- Concrete ledger state for the claim C2 witness: ten on hand at unit cost
five. -/
def stC2 : LedgerState :=
  { item := { quantity := 10, unitCost := some 5, totalValue := some 50 },
    lifecycle := none, movements := [], mortalityLogs := [] }

/-- Concrete request for the claim C2 witness: four lost to disease. -/
def reqC2 : MortalityRequest :=
  { reason := "DISEASE", quantity := 4, notes := none, season := none }

/-- Witness for claim C2: the spec's own example — losing 4 of 10 to DISEASE
leaves 6, one log with quantity 4, and one OUT movement with quantity 4. -/
theorem claim_C2_witness :
    (mortalityReasons.contains reqC2.reason = true ∧
     1 ≤ reqC2.quantity ∧ reqC2.quantity ≤ stC2.item.quantity) ∧
    ∃ st' log,
      recordMortality stC2 reqC2 0 0 0 = Except.ok (st', log) ∧
      st'.item.quantity = stC2.item.quantity - reqC2.quantity ∧
      (∀ c, stC2.item.unitCost = some c →
        st'.item.totalValue = some ((stC2.item.quantity - reqC2.quantity) * c)) ∧
      st'.mortalityLogs = log :: stC2.mortalityLogs ∧
      log.quantity = reqC2.quantity ∧
      log.totalLoss = (stC2.item.unitCost.getD 0) * reqC2.quantity ∧
      (stC2.item.unitCost = none → log.totalLoss = 0) ∧
      ∃ mv, st'.movements = mv :: stC2.movements ∧
        mv.type = MovementType.OUT ∧ mv.quantity = reqC2.quantity :=
  ⟨⟨by decide, by decide, by decide⟩,
   claim_C2_mortality_success_effects stC2 reqC2 0 0 0
     (by decide) (by decide) (by decide)⟩

/-- Claim C3: a schema-valid mortality request for more than the on-hand
quantity is rejected with the insufficient-stock error and the ledger state —
item quantity, movement log and mortality log — is left untouched. -/
theorem claim_C3_mortality_insufficient_stock
    (st : LedgerState) (req : MortalityRequest) (now : Int)
    (currentMonth : Nat) (fallbackDays : Int)
    (hreason : mortalityReasons.contains req.reason = true)
    (hpos : 1 ≤ req.quantity)
    (hover : st.item.quantity < req.quantity) :
    recordMortality st req now currentMonth fallbackDays =
      Except.error "Cannot log mortality for more items than available in inventory" ∧
    applyMortality st req now currentMonth fallbackDays = st := by
  have hs := schemaValid_of req hreason hpos
  constructor
  · simp [recordMortality, hs, hover]
  · simp [applyMortality, recordMortality, hs, hover]

/-- Concrete ledger state for the claim C3 witness: six on hand. -/
def stC3 : LedgerState :=
  { item := { quantity := 6, unitCost := some 5, totalValue := some 30 },
    lifecycle := none, movements := [], mortalityLogs := [] }

/-- Concrete request for the claim C3 witness: one hundred against six. -/
def reqC3 : MortalityRequest :=
  { reason := "DISEASE", quantity := 100, notes := none, season := none }

/-- Witness for claim C3: the spec's example — quantity 100 against on-hand 6
fails with the insufficient-stock error and changes nothing. -/
theorem claim_C3_witness :
    (mortalityReasons.contains reqC3.reason = true ∧
     1 ≤ reqC3.quantity ∧ stC3.item.quantity < reqC3.quantity) ∧
    recordMortality stC3 reqC3 0 0 0 =
      Except.error "Cannot log mortality for more items than available in inventory" ∧
    applyMortality stC3 reqC3 0 0 0 = stC3 :=
  ⟨⟨by decide, by decide, by decide⟩,
   claim_C3_mortality_insufficient_stock stC3 reqC3 0 0 0
     (by decide) (by decide) (by decide)⟩

/-- Claim C4: on an item with an attached living lifecycle row, a successful
mortality marks the plant dead — `isAlive` false, `deathDate` set to the
operation timestamp, `deathReason` set to the supplied reason — exactly when
the remaining quantity is zero; a strictly positive remaining quantity leaves
`isAlive` true; and afterwards `deathDate` is non-null exactly when `isAlive`
is false. -/
theorem claim_C4_mortality_lifecycle
    (st : LedgerState) (req : MortalityRequest) (now : Int)
    (currentMonth : Nat) (fallbackDays : Int) (l : PlantLifecycle)
    (hlife : st.lifecycle = some l) (halive : l.isAlive = true)
    (hreason : mortalityReasons.contains req.reason = true)
    (hpos : 1 ≤ req.quantity)
    (havail : req.quantity ≤ st.item.quantity) :
    ∃ st' log,
      recordMortality st req now currentMonth fallbackDays =
        Except.ok (st', log) ∧
      st'.lifecycle = some (lifecycleRowAfter st req now l) ∧
      ((lifecycleRowAfter st req now l).isAlive = false ↔
        st.item.quantity - req.quantity = 0) ∧
      (st.item.quantity - req.quantity = 0 →
        (lifecycleRowAfter st req now l).deathDate = some now ∧
        (lifecycleRowAfter st req now l).deathReason = some req.reason) ∧
      (0 < st.item.quantity - req.quantity →
        (lifecycleRowAfter st req now l).isAlive = true) ∧
      ((lifecycleRowAfter st req now l).deathDate ≠ none ↔
        (lifecycleRowAfter st req now l).isAlive = false) := by
  have hs := schemaValid_of req hreason hpos
  have hng : ¬ st.item.quantity < req.quantity := not_lt.mpr havail
  have hD : 0 ≤ st.item.quantity - req.quantity := by omega
  refine ⟨_, _,
    recordMortality_ok_eq st req now currentMonth fallbackDays hs hng,
    ?_, ?_, ?_, ?_, ?_⟩
  · simp [mortalitySuccessState, mortalityLifecycleAfter, hlife]
  · simp only [lifecycleRowAfter, decide_eq_false_iff_not]
    omega
  · intro h0
    simp [lifecycleRowAfter, h0]
  · intro h0
    simp [lifecycleRowAfter]
    omega
  · by_cases h0 : st.item.quantity - req.quantity = 0
    · simp [lifecycleRowAfter, h0]
    · have hpos' : 0 < st.item.quantity - req.quantity := by omega
      simp [lifecycleRowAfter, h0, hpos']

/-- Concrete lifecycle row for the claim C4 witness: alive, five days in the
yard. -/
def lC4 : PlantLifecycle :=
  { daysInYard := 5, isAlive := true, deathDate := none, deathReason := none,
    mortalityNotes := none }

/-- Concrete ledger state for the claim C4 witness: four on hand with an
attached living lifecycle row. -/
def stC4 : LedgerState :=
  { item := { quantity := 4, unitCost := some 3, totalValue := some 12 },
    lifecycle := some lC4, movements := [], mortalityLogs := [] }

/-- Concrete request for the claim C4 witness: all four lost to disease. -/
def reqC4 : MortalityRequest :=
  { reason := "DISEASE", quantity := 4, notes := none, season := none }

/-- Witness for claim C4: losing all four marks the lifecycle dead with the
operation timestamp and the supplied reason. -/
theorem claim_C4_witness :
    (stC4.lifecycle = some lC4 ∧ lC4.isAlive = true ∧
     mortalityReasons.contains reqC4.reason = true ∧
     1 ≤ reqC4.quantity ∧ reqC4.quantity ≤ stC4.item.quantity) ∧
    ∃ st' log,
      recordMortality stC4 reqC4 7 0 0 = Except.ok (st', log) ∧
      st'.lifecycle = some (lifecycleRowAfter stC4 reqC4 7 lC4) ∧
      ((lifecycleRowAfter stC4 reqC4 7 lC4).isAlive = false ↔
        stC4.item.quantity - reqC4.quantity = 0) ∧
      (stC4.item.quantity - reqC4.quantity = 0 →
        (lifecycleRowAfter stC4 reqC4 7 lC4).deathDate = some 7 ∧
        (lifecycleRowAfter stC4 reqC4 7 lC4).deathReason = some reqC4.reason) ∧
      (0 < stC4.item.quantity - reqC4.quantity →
        (lifecycleRowAfter stC4 reqC4 7 lC4).isAlive = true) ∧
      ((lifecycleRowAfter stC4 reqC4 7 lC4).deathDate ≠ none ↔
        (lifecycleRowAfter stC4 reqC4 7 lC4).isAlive = false) :=
  ⟨⟨rfl, rfl, by decide, by decide, by decide⟩,
   claim_C4_mortality_lifecycle stC4 reqC4 7 0 0 lC4 rfl rfl
     (by decide) (by decide) (by decide)⟩

/-- Claim C8: when the request supplies no season the handler infers it from
the zero-based calendar month — indices 2 to 4 (March to May) give Spring,
5 to 7 (June to August) give Summer, 8 to 10 (September to November) give
Fall, and 11, 0, 1 (December to February) give Winter — while a supplied
season is used unchanged, and the created `MortalityLog` always records
exactly this choice. -/
theorem claim_C8_season_inference :
    (seasonChoice none 0 = Season.Winter ∧ seasonChoice none 1 = Season.Winter ∧
     seasonChoice none 2 = Season.Spring ∧ seasonChoice none 3 = Season.Spring ∧
     seasonChoice none 4 = Season.Spring ∧ seasonChoice none 5 = Season.Summer ∧
     seasonChoice none 6 = Season.Summer ∧ seasonChoice none 7 = Season.Summer ∧
     seasonChoice none 8 = Season.Fall ∧ seasonChoice none 9 = Season.Fall ∧
     seasonChoice none 10 = Season.Fall ∧ seasonChoice none 11 = Season.Winter) ∧
    (∀ (s : Season) (currentMonth : Nat),
      seasonChoice (some s) currentMonth = s) ∧
    (∀ (st : LedgerState) (req : MortalityRequest) (now : Int)
       (currentMonth : Nat) (fallbackDays : Int) st' log,
      recordMortality st req now currentMonth fallbackDays =
        Except.ok (st', log) →
      log.season = seasonChoice req.season currentMonth) := by
  refine ⟨by decide, fun s m => rfl, ?_⟩
  intro st req now currentMonth fallbackDays st' log h
  cases hsv : schemaValid req with
  | false => simp [recordMortality, hsv] at h
  | true =>
    by_cases hq : st.item.quantity < req.quantity
    · simp [recordMortality, hsv, hq] at h
    · rw [recordMortality_ok_eq st req now currentMonth fallbackDays hsv hq] at h
      simp only [Except.ok.injEq, Prod.mk.injEq] at h
      obtain ⟨-, h2⟩ := h
      subst h2
      rfl

/-- Concrete ledger state for the claim C8 witness: three on hand, no unit
cost, no lifecycle row. -/
def stC8 : LedgerState :=
  { item := { quantity := 3, unitCost := none, totalValue := none },
    lifecycle := none, movements := [], mortalityLogs := [] }

/-- Concrete request for the claim C8 witness: one lost, no season given. -/
def reqC8 : MortalityRequest :=
  { reason := "OTHER", quantity := 1, notes := none, season := none }

/-- Witness for claim C8: a July (month index 6) mortality with no supplied
season records Summer. -/
theorem claim_C8_witness :
    recordMortality stC8 reqC8 0 6 0 =
      Except.ok (mortalitySuccessState stC8 reqC8 0 6 0,
                 mortalityLogOf stC8 reqC8 6 0) ∧
    (mortalityLogOf stC8 reqC8 6 0).season = seasonChoice reqC8.season 6 ∧
    seasonChoice reqC8.season 6 = Season.Summer :=
  ⟨rfl, claim_C8_season_inference.2.2 stC8 reqC8 0 6 0 _ _ rfl, rfl⟩
